import Mathlib

/-!
Shallow embedding of src/src/gpt.ts (an OpenAI chat-completion client).

The TypeScript source is embedded as follows:
* a JavaScript object field is `JSField α`: the key may be absent, present
  with value undefined, or present with a value (object spread copies own
  keys, including those whose value is undefined);
* a value read from an object (`options.max_tokens`) is `JSVal α`: reading
  an absent key yields undefined;
* a JavaScript `Set<string>` is an insertion-ordered duplicate-free list,
  built by `setAdd` (the semantics of `Set.prototype.add`);
* the HTTP transport (`axios.post`) is a parameter: a function from
  endpoint, headers and request body to either a rejection message or a
  resolved `HttpResponse`;
* thrown exceptions are `Except`; `process.exit(1)` in `getEnv` is a
  `ConfigError`;
* the external post-processor `trimCompletion` (imported from ./syntax,
  outside this file's source) is a parameter that may itself fail.
-/

/-- Presence-aware field of a JavaScript object: the key can be absent,
present with value `undefined`, or present with a value. -/
inductive JSField (α : Type) where
  | absent : JSField α
  | undef : JSField α
  | val : α → JSField α
deriving DecidableEq, Repr

/-- Result of reading a property off a JavaScript object: `undefined` or a
value. -/
inductive JSVal (α : Type) where
  | undef : JSVal α
  | val : α → JSVal α
deriving DecidableEq, Repr

/-- Property read: an absent key reads as `undefined`; a key present with
`undefined` also reads as `undefined`. -/
def JSField.read : JSField α → JSVal α
  | .absent => .undef
  | .undef => .undef
  | .val v => .val v

/-- One key of the object spread `\x7b ...lo, ...hi \x7d`: the later object
wins whenever it has the key as an own property, even when its value is
`undefined`; otherwise the earlier object's field is kept. -/
def JSField.spread : JSField α → JSField α → JSField α
  | lo, .absent => lo
  | _, .undef => .undef
  | _, .val v => .val v

/-- PostOptions of gpt.ts: `Partial<typeof defaultPostOptions>`.
`max_tokens` and `n` are positive integers, `temperature` and `top_p` are
numbers (modelled as rationals), `stop` is `string[] | null` (the `Option`
inside the field: `none` is `null`). -/
structure PostOptions where
  max_tokens : JSField Nat
  temperature : JSField Rat
  n : JSField Nat
  top_p : JSField Rat
  stop : JSField (Option (List String))
deriving DecidableEq, Repr

/-- Built-in defaults of gpt.ts lines 7-13: every key present;
`stop: null`. -/
def defaultPostOptions : PostOptions :=
  { max_tokens := .val 100
    temperature := .val 0
    n := .val 1
    top_p := .val 1
    stop := .val none }

/-- Record with no own keys: the empty object literal. -/
def emptyPostOptions : PostOptions :=
  { max_tokens := .absent
    temperature := .absent
    n := .absent
    top_p := .absent
    stop := .absent }

/-- Object spread of two option records, key by key: the semantics of
`\x7b ...lo, ...hi \x7d` on records of this fixed shape. -/
def spreadOptions (lo hi : PostOptions) : PostOptions :=
  { max_tokens := lo.max_tokens.spread hi.max_tokens
    temperature := lo.temperature.spread hi.temperature
    n := lo.n.spread hi.n
    top_p := lo.top_p.spread hi.top_p
    stop := lo.stop.spread hi.stop }

/-- Message object of the request body. -/
structure ChatMessage where
  role : String
  content : String
deriving DecidableEq, Repr

/-- Request body built at gpt.ts lines 59-67: every key is written
explicitly, so each is present, holding whatever the property read of the
merged options produced. -/
structure RequestBody where
  model : String
  messages : List ChatMessage
  max_tokens : JSVal Nat
  temperature : JSVal Rat
  n : JSVal Nat
  top_p : JSVal Rat
  stop : JSVal (Option (List String))
deriving DecidableEq, Repr

/-- Build the request body from the prompt and the merged options
(gpt.ts lines 59-67). -/
def buildRequestBody (prompt : String) (options : PostOptions) : RequestBody :=
  { model := "gpt-4"
    messages := [{ role := "user", content := prompt }]
    max_tokens := options.max_tokens.read
    temperature := options.temperature.read
    n := options.n.read
    top_p := options.top_p.read
    stop := options.stop.read }

/-- One choice of the response payload: `\x7b message: \x7b content \x7d \x7d`. -/
structure Choice where
  message : ChatMessage
deriving DecidableEq, Repr

/-- Response payload; `choices` may be absent or null (`none`), which the
source defaults to the empty list via `res.data.choices || []`. -/
structure ResponseData where
  choices : Option (List Choice)
deriving DecidableEq, Repr

/-- Resolved HTTP response as seen by the code after `await axios.post`:
status, status text, and the payload (`none` models a missing or empty
`res.data`, which is falsy). -/
structure HttpResponse where
  status : Nat
  statusText : String
  data : Option ResponseData
deriving DecidableEq, Repr

/-- Transport: what `axios.post(endpoint, body, headers)` does. `Except.error`
is a rejected promise (network-level failure) carrying the error message. -/
def Transport : Type :=
  String → List (String × String) → RequestBody → Except String HttpResponse

/-- Errors thrown by `query` (gpt.ts lines 69, 79-87), with the data each
carries. -/
inductive QueryError where
  | transport : String → QueryError
  | http : Nat → String → QueryError
  | emptyResponse : QueryError
deriving DecidableEq, Repr

deriving instance DecidableEq for Except

/-- Message of a thrown error, as read by `err.message` in `completions`. -/
def QueryError.message : QueryError → String
  | .transport m => m
  | .http status statusText =>
      "Request failed with status " ++ toString status ++ " and message " ++ statusText
  | .emptyResponse => "Response data is empty"

/-- Membership-tested insertion: `Set.prototype.add` on an
insertion-ordered, duplicate-free list. -/
def setAdd (s : List String) (x : String) : List String :=
  if x ∈ s then s else s ++ [x]

/-- Build a JavaScript `Set` by inserting the elements of a list in order. -/
def setOfList (xs : List String) : List String :=
  xs.foldl setAdd []

/-- Whitespace as trimmed by JavaScript `String.prototype.trim`: WhiteSpace
(tab, vertical tab, form feed, space, NBSP, BOM, Unicode space separators)
and LineTerminator (LF, CR, LS, PS) code points. -/
def isJsWhitespace (c : Char) : Bool :=
  c.val = 0x09 || c.val = 0x0A || c.val = 0x0B || c.val = 0x0C || c.val = 0x0D ||
  c.val = 0x20 || c.val = 0xA0 || c.val = 0x1680 ||
  (0x2000 ≤ c.val && c.val ≤ 0x200A) ||
  c.val = 0x2028 || c.val = 0x2029 || c.val = 0x202F || c.val = 0x205F ||
  c.val = 0x3000 || c.val = 0xFEFF

/-- JavaScript `String.prototype.trim`: drop leading and trailing
whitespace. -/
def jsTrim (s : String) : String :=
  String.mk (((s.data.dropWhile isJsWhitespace).reverse.dropWhile isJsWhitespace).reverse)

/-- Configuration failure: `getEnv` prints the diagnostic and calls
`process.exit(1)` (gpt.ts lines 16-23). -/
inductive ConfigError where
  | missing : String → ConfigError
deriving DecidableEq, Repr

/-- Process environment: a map from variable names to values; `none` is an
unset variable. -/
def Env : Type := String → Option String

/-- Lookup of gpt.ts lines 16-23: `!value` rejects both an unset variable
(`undefined`) and one set to the empty string (both are falsy). -/
def getEnv (env : Env) (name : String) : Except ConfigError String :=
  match env name with
  | none => .error (.missing ("Please set the " ++ name ++ " environment variable."))
  | some value =>
      if value = "" then
        .error (.missing ("Please set the " ++ name ++ " environment variable."))
      else
        .ok value

/-- State of a constructed OpenAIModel: the readonly fields set by the
constructor (gpt.ts lines 25-33). -/
structure OpenAIModel where
  instanceOptions : PostOptions
  apiEndpoint : String
  apiKey : String
deriving DecidableEq, Repr

/-- Constructor of OpenAIModel (gpt.ts lines 29-33): fixes the endpoint and
reads the credential before anything else can happen; failure of `getEnv`
aborts construction, so no request is ever issued. -/
def OpenAIModel.construct (instanceOptions : PostOptions) (env : Env) :
    Except ConfigError OpenAIModel :=
  (getEnv env "OPENAI_API_KEY").map fun key =>
    { instanceOptions := instanceOptions
      apiEndpoint := "https://api.openai.com/v1/chat/completions"
      apiKey := key }

/-- Request headers of gpt.ts lines 46-49. -/
def headersOf (apiKey : String) : List (String × String) :=
  [("Content-Type", "application/json"), ("Authorization", "Bearer " ++ apiKey)]

/-- Three-layer merge of gpt.ts lines 51-55:
`\x7b ...defaultPostOptions, ...this.instanceOptions, ...requestPostOptions \x7d`. -/
def OpenAIModel.effectiveOptions (model : OpenAIModel)
    (requestPostOptions : PostOptions) : PostOptions :=
  spreadOptions (spreadOptions defaultPostOptions model.instanceOptions) requestPostOptions

/-- The query operation (gpt.ts lines 42-95): merge options, build the body,
post it, validate status and payload, then collect each choice's trimmed
message content into a `Set`. -/
def OpenAIModel.query (model : OpenAIModel) (prompt : String)
    (requestPostOptions : PostOptions) (transport : Transport) :
    Except QueryError (List String) :=
  match transport model.apiEndpoint (headersOf model.apiKey)
      (buildRequestBody prompt (model.effectiveOptions requestPostOptions)) with
  | .error m => .error (.transport m)
  | .ok res =>
      if res.status ≠ 200 then
        .error (.http res.status res.statusText)
      else
        match res.data with
        | none => .error .emptyResponse
        | some data =>
            .ok (setOfList ((data.choices.getD []).map fun choice =>
              jsTrim choice.message.content))

/-- External post-processor `trimCompletion` from ./syntax; it may throw,
in which case the error message is carried. -/
def Trimmer : Type := String → Except String String

/-- Apply the post-processor to every completion in iteration order,
stopping at the first failure (the loop body of gpt.ts lines 109-111). -/
def trimAll (trimCompletion : Trimmer) : List String → Except String (List String)
  | [] => .ok []
  | x :: xs => do
      let y ← trimCompletion x
      let ys ← trimAll trimCompletion xs
      pure (y :: ys)

/-- Object literal `\x7b temperature \x7d` of gpt.ts line 109: a record whose
only own key is `temperature`. -/
def tempOnly (temperature : Rat) : PostOptions :=
  { emptyPostOptions with temperature := .val temperature }

/-- Body of the try block of `completions` (gpt.ts lines 107-112): query
with only `temperature` overridden, then post-process every completion into
a fresh `Set`. -/
def OpenAIModel.completionsTry (model : OpenAIModel) (prompt : String)
    (temperature : Rat) (trimCompletion : Trimmer) (transport : Transport) :
    Except String (List String) :=
  match model.query prompt (tempOnly temperature) transport with
  | .error err => .error err.message
  | .ok completions =>
      match trimAll trimCompletion completions with
      | .error m => .error m
      | .ok trimmed => .ok (setOfList trimmed)

/-- The completions operation (gpt.ts lines 103-117): returns the result
set together with the list of warnings printed by `console.warn`; the catch
branch converts any thrown error into an empty set plus one warning. -/
def OpenAIModel.completions (model : OpenAIModel) (prompt : String)
    (temperature : Rat) (trimCompletion : Trimmer) (transport : Transport) :
    List String × List String :=
  match model.completionsTry prompt temperature trimCompletion transport with
  | .ok result => (result, [])
  | .error m => ([], ["Failed to get completions: " ++ m])

/-- Specification-side merge of one option field, written from the spec's
words: three layers combine in increasing priority, the built-in default
overridden by the instance field when present, overridden by the per-call
field when present. Compared against the source's spread chain. -/
def layer3 (d i c : JSField α) : JSField α :=
  match c with
  | .absent =>
      match i with
      | .absent => d
      | .undef => .undef
      | .val v => .val v
  | .undef => .undef
  | .val v => .val v

/-- Concrete model fixture used by witnesses and counterexamples. -/
def sampleModel : OpenAIModel :=
  { instanceOptions := emptyPostOptions
    apiEndpoint := "https://api.openai.com/v1/chat/completions"
    apiKey := "k" }

/-- Stub transport resolving every request with a fixed response. -/
def constTransport (res : HttpResponse) : Transport :=
  fun _ _ _ => .ok res

/-- Stub transport rejecting every request with a fixed message. -/
def failTransport (m : String) : Transport :=
  fun _ _ _ => .error m

/-- Response fixture with the given status and one choice per listed
content string; status text is "st". -/
def okChoices (status : Nat) (texts : List String) : HttpResponse :=
  { status := status
    statusText := "st"
    data := some { choices := some (texts.map fun t =>
      { message := { role := "assistant", content := t } }) } }

/-- Choice-list fixture for the whitespace-deduplication example of the
spec: contents " hi  " and "hi". -/
def hiChoices : List Choice :=
  [{ message := { role := "assistant", content := " hi  " } },
   { message := { role := "assistant", content := "hi" } }]

/-- Per-call options fixture holding `undefined` in every present key;
`n` is left absent. -/
def undefCall : PostOptions :=
  { max_tokens := .undef
    temperature := .undef
    n := .absent
    top_p := .undef
    stop := .undef }

/-- Model fixture whose instance options set `n` to `undefined`. -/
def undefInstModel : OpenAIModel :=
  { instanceOptions := { emptyPostOptions with n := .undef }
    apiEndpoint := "https://api.openai.com/v1/chat/completions"
    apiKey := "k" }

/-! Helper lemmas about the JavaScript `Set` model. -/

theorem mem_setAdd {s : List String} {x y : String} :
    y ∈ setAdd s x ↔ y ∈ s ∨ y = x := by
  by_cases h : x ∈ s
  · simp only [setAdd, if_pos h]
    constructor
    · exact Or.inl
    · rintro (hy | rfl)
      · exact hy
      · exact h
  · simp [setAdd, if_neg h]

theorem nodup_setAdd {s : List String} {x : String} (h : s.Nodup) :
    (setAdd s x).Nodup := by
  by_cases hx : x ∈ s
  · simpa [setAdd, if_pos hx] using h
  · simp only [setAdd, if_neg hx]
    rw [List.nodup_append]
    refine ⟨h, List.nodup_singleton x, ?_⟩
    intro a ha hb
    rw [List.mem_singleton] at hb
    subst hb
    exact hx ha

theorem mem_foldl_setAdd (xs : List String) :
    ∀ acc y, (y ∈ xs.foldl setAdd acc ↔ y ∈ acc ∨ y ∈ xs) := by
  induction xs with
  | nil => simp
  | cons x xs ih =>
      intro acc y
      simp only [List.foldl_cons, ih, mem_setAdd, List.mem_cons]
      tauto

theorem nodup_foldl_setAdd (xs : List String) :
    ∀ acc, acc.Nodup → (xs.foldl setAdd acc).Nodup := by
  induction xs with
  | nil => exact fun _ h => h
  | cons x xs ih => exact fun acc h => ih _ (nodup_setAdd h)

theorem mem_setOfList {xs : List String} {y : String} :
    y ∈ setOfList xs ↔ y ∈ xs := by
  simp [setOfList, mem_foldl_setAdd]

theorem nodup_setOfList (xs : List String) : (setOfList xs).Nodup :=
  nodup_foldl_setAdd xs [] List.nodup_nil

theorem toFinset_setOfList (xs : List String) :
    (setOfList xs).toFinset = xs.toFinset := by
  ext y
  simp [mem_setOfList]

theorem length_setOfList (xs : List String) :
    (setOfList xs).length = xs.toFinset.card := by
  rw [← List.toFinset_card_of_nodup (nodup_setOfList xs), toFinset_setOfList]

theorem length_setOfList_le (xs : List String) :
    (setOfList xs).length ≤ xs.length := by
  rw [length_setOfList]
  exact xs.toFinset_card_le

theorem length_setOfList_eq_iff (xs : List String) :
    (setOfList xs).length = xs.length ↔ xs.Nodup := by
  rw [length_setOfList]
  have h := @Multiset.toFinset_card_eq_card_iff_nodup String _ (xs : Multiset String)
  simpa using h

/-! Helper lemmas about option merging. -/

theorem spread_layer3 (d i c : JSField α) :
    (d.spread i).spread c = layer3 d i c := by
  cases i <;> cases c <;> rfl

theorem spreadOptions_empty (lo : PostOptions) :
    spreadOptions lo emptyPostOptions = lo := by
  cases lo
  rfl

theorem spreadOptions_tempOnly (lo : PostOptions) (t : Rat) :
    spreadOptions lo (tempOnly t) = { lo with temperature := .val t } := by
  cases lo
  rfl

/-! Claim theorems. -/

/-- C1 (amended): for every status-200 response carrying a payload, `query`
returns the set obtained by trimming each choice's message content and
collapsing duplicates; the set's size is at most the number of choices,
with equality exactly when no two choices trim to identical text. (The
claim's "2xx" is amended to "status 200": the source compares the status
to 200 exactly.) -/
theorem C1_query_trims_and_dedups (model : OpenAIModel) (prompt : String)
    (opts : PostOptions) (transport : Transport) (res : HttpResponse)
    (data : ResponseData)
    (htr : transport model.apiEndpoint (headersOf model.apiKey)
      (buildRequestBody prompt (model.effectiveOptions opts)) = .ok res)
    (hst : res.status = 200) (hdata : res.data = some data) :
    model.query prompt opts transport =
      .ok (setOfList ((data.choices.getD []).map fun c => jsTrim c.message.content)) ∧
    (setOfList ((data.choices.getD []).map fun c => jsTrim c.message.content)).length ≤
      (data.choices.getD []).length ∧
    ((setOfList ((data.choices.getD []).map fun c => jsTrim c.message.content)).length =
        (data.choices.getD []).length ↔
      ((data.choices.getD []).map fun c => jsTrim c.message.content).Nodup) := by
  refine ⟨?_, ?_, ?_⟩
  · simp [OpenAIModel.query, htr, hst, hdata]
  · have h1 := length_setOfList_le ((data.choices.getD []).map fun c => jsTrim c.message.content)
    have h2 := List.length_map (data.choices.getD []) (fun c => jsTrim c.message.content)
    omega
  · have h2 := List.length_map (data.choices.getD []) (fun c => jsTrim c.message.content)
    rw [← h2]
    exact length_setOfList_eq_iff _

/-- C1 witness: a 200 response whose two choices hold " hi  " and "hi"
yields the single-element set containing "hi". -/
theorem C1_witness :
    sampleModel.query "p" emptyPostOptions (constTransport (okChoices 200 [" hi  ", "hi"])) =
      .ok (setOfList (hiChoices.map fun c => jsTrim c.message.content)) ∧
    setOfList (hiChoices.map fun c => jsTrim c.message.content) = ["hi"] :=
  ⟨(C1_query_trims_and_dedups sampleModel "p" emptyPostOptions
      (constTransport (okChoices 200 [" hi  ", "hi"])) (okChoices 200 [" hi  ", "hi"])
      { choices := some hiChoices } rfl rfl rfl).1,
   by decide⟩

/-- C1 counterexample: status 201 is 2xx, yet `query` throws the
status error instead of returning the extracted set, because the source
compares the status to 200 exactly (gpt.ts line 79). -/
theorem C1_counterexample :
    (200 ≤ 201 ∧ 201 < 300) ∧
    sampleModel.query "p" emptyPostOptions (constTransport (okChoices 201 ["hi"])) =
      .error (.http 201 "st") := by
  decide

/-- C2 (amended): each field placed in the request body is the built-in
default (max_tokens 100, temperature 0, n 1, top_p 1, stop null) overridden
by the instance field when present, overridden by the per-call field when
present, per-call winning. (The claim's "stop absent" is amended to "stop
null": gpt.ts line 12 is `stop: null`, a present key.) -/
theorem C2_options_layering (model : OpenAIModel) (call : PostOptions) (prompt : String) :
    (buildRequestBody prompt (model.effectiveOptions call)).max_tokens =
      (layer3 (.val 100) model.instanceOptions.max_tokens call.max_tokens).read ∧
    (buildRequestBody prompt (model.effectiveOptions call)).temperature =
      (layer3 (.val 0) model.instanceOptions.temperature call.temperature).read ∧
    (buildRequestBody prompt (model.effectiveOptions call)).n =
      (layer3 (.val 1) model.instanceOptions.n call.n).read ∧
    (buildRequestBody prompt (model.effectiveOptions call)).top_p =
      (layer3 (.val 1) model.instanceOptions.top_p call.top_p).read ∧
    (buildRequestBody prompt (model.effectiveOptions call)).stop =
      (layer3 (.val none) model.instanceOptions.stop call.stop).read := by
  refine ⟨?_, ?_, ?_, ?_, ?_⟩ <;>
    simp [buildRequestBody, OpenAIModel.effectiveOptions, spreadOptions,
      defaultPostOptions, spread_layer3]

/-- C2 counterexample: with no instance and no per-call overrides the body
carries `stop: null` (a present key with null value), whereas the claim's
defaults ("stop absent") would put `undefined` there. -/
theorem C2_counterexample :
    (buildRequestBody "p" (sampleModel.effectiveOptions emptyPostOptions)).stop =
      JSVal.val none ∧
    (layer3 (JSField.absent : JSField (Option (List String)))
        sampleModel.instanceOptions.stop emptyPostOptions.stop).read = JSVal.undef ∧
    JSVal.val (none : Option (List String)) ≠ JSVal.undef := by
  decide

/-- C3: `completions` is total (never raises) for every prompt,
temperature, post-processor and transport behaviour: either the try block
succeeds and no warning is logged, or it fails and the call returns the
empty set together with exactly one warning carrying the error's
message. -/
theorem C3_completions_never_raises (model : OpenAIModel) (prompt : String)
    (temperature : Rat) (trimCompletion : Trimmer) (transport : Transport) :
    (∃ result, model.completionsTry prompt temperature trimCompletion transport = .ok result ∧
        model.completions prompt temperature trimCompletion transport = (result, [])) ∨
    (∃ m, model.completionsTry prompt temperature trimCompletion transport = .error m ∧
        model.completions prompt temperature trimCompletion transport =
          ([], ["Failed to get completions: " ++ m])) := by
  cases h : model.completionsTry prompt temperature trimCompletion transport with
  | ok result => exact Or.inl ⟨result, rfl, by simp [OpenAIModel.completions, h]⟩
  | error m => exact Or.inr ⟨m, rfl, by simp [OpenAIModel.completions, h]⟩

/-- C4 (amended): over resolved responses, `query` raises exactly when the
status is not 200 or the payload is missing/empty, and returns normally
otherwise; a non-200 status yields the error carrying the status code and
status text (checked first), a status-200 response with missing/empty
payload yields the empty-response error, and the errors reach the caller
unmodified with no retry. (The claim's "non-2xx" is amended to "not 200":
the source compares the status to 200 exactly.) -/
theorem C4_query_failure_conditions (model : OpenAIModel) (prompt : String)
    (opts : PostOptions) (transport : Transport) (res : HttpResponse)
    (htr : transport model.apiEndpoint (headersOf model.apiKey)
      (buildRequestBody prompt (model.effectiveOptions opts)) = .ok res) :
    (res.status ≠ 200 →
      model.query prompt opts transport = .error (.http res.status res.statusText)) ∧
    (res.status = 200 → res.data = none →
      model.query prompt opts transport = .error .emptyResponse) ∧
    (res.status = 200 → ∀ data, res.data = some data →
      model.query prompt opts transport =
        .ok (setOfList ((data.choices.getD []).map fun c => jsTrim c.message.content))) := by
  refine ⟨?_, ?_, ?_⟩
  · intro h
    simp [OpenAIModel.query, htr, h]
  · intro h hd
    simp [OpenAIModel.query, htr, h, hd]
  · intro h data hd
    simp [OpenAIModel.query, htr, h, hd]

/-- C4 witness: a stubbed 429 response makes `query` fail with the error
carrying status 429 and its status text. -/
theorem C4_witness :
    sampleModel.query "p" emptyPostOptions (constTransport (okChoices 429 ["hi"])) =
      .error (.http 429 "st") :=
  (C4_query_failure_conditions sampleModel "p" emptyPostOptions
      (constTransport (okChoices 429 ["hi"])) (okChoices 429 ["hi"]) rfl).1 (by decide)

/-- C4 counterexample: status 204 is 2xx with a well-formed payload, so the
claim says `query` returns normally, yet the source throws because the
status is not exactly 200. -/
theorem C4_counterexample :
    (200 ≤ 204 ∧ 204 < 300) ∧
    sampleModel.query "p" emptyPostOptions (constTransport (okChoices 204 ["hi"])) =
      .error (.http 204 "st") := by
  decide

/-- C5: when the inner query and the post-processing both succeed,
`completions` returns exactly the set of post-processed query results and
logs nothing, and the effective options of that inner query are the merged
default/instance options with only `temperature` replaced — every other
field, `n` included, is untouched. -/
theorem C5_completions_postprocesses_query (model : OpenAIModel) (prompt : String)
    (temperature : Rat) (trimCompletion : Trimmer) (transport : Transport)
    (qs ts : List String)
    (hq : model.query prompt (tempOnly temperature) transport = .ok qs)
    (ht : trimAll trimCompletion qs = .ok ts) :
    model.completions prompt temperature trimCompletion transport = (setOfList ts, []) ∧
    model.effectiveOptions (tempOnly temperature) =
      { model.effectiveOptions emptyPostOptions with temperature := .val temperature } := by
  constructor
  · simp [OpenAIModel.completions, OpenAIModel.completionsTry, hq, ht]
  · simp only [OpenAIModel.effectiveOptions, spreadOptions_empty, spreadOptions_tempOnly]

/-- C5 witness: with a post-processor appending "!", a 200 response with
contents "x" and " x " (both trim to "x") yields the single completion
"x!" and no warning. -/
theorem C5_witness :
    sampleModel.completions "p" 0 (fun s => .ok (s ++ "!"))
      (constTransport (okChoices 200 ["x", " x "])) = (setOfList ["x!"], []) :=
  (C5_completions_postprocesses_query sampleModel "p" 0 (fun s => .ok (s ++ "!"))
      (constTransport (okChoices 200 ["x", " x "])) ["x"] ["x!"]
      (by decide) (by decide)).1

/-- C6 (amended): a status-200 response whose non-empty payload lacks the
`choices` field makes `query` return the empty set rather than raise. (The
claim's "2xx" is amended to "status 200": the source compares the status
to 200 exactly.) -/
theorem C6_missing_choices_yields_empty (model : OpenAIModel) (prompt : String)
    (opts : PostOptions) (transport : Transport) (st : String)
    (htr : transport model.apiEndpoint (headersOf model.apiKey)
      (buildRequestBody prompt (model.effectiveOptions opts)) =
        .ok { status := 200, statusText := st, data := some { choices := none } }) :
    model.query prompt opts transport = .ok [] := by
  simp [OpenAIModel.query, htr, setOfList]

/-- C6 witness: concrete stub of a 200 response with a payload lacking
`choices`. -/
theorem C6_witness :
    sampleModel.query "p" emptyPostOptions
      (constTransport { status := 200, statusText := "st", data := some { choices := none } }) =
      .ok [] :=
  C6_missing_choices_yields_empty sampleModel "p" emptyPostOptions
    (constTransport { status := 200, statusText := "st", data := some { choices := none } })
    "st" rfl

/-- C6 counterexample: status 299 is 2xx and the payload lacks `choices`,
so the claim says `query` returns the empty set, yet the source raises the
status error because the status is not exactly 200. -/
theorem C6_counterexample :
    (200 ≤ 299 ∧ 299 < 300) ∧
    sampleModel.query "p" emptyPostOptions
      (constTransport { status := 299, statusText := "st", data := some { choices := none } }) =
      .error (.http 299 "st") := by
  decide

/-- C7: when the environment lacks OPENAI_API_KEY, construction fails with
the configuration error carrying the diagnostic, before any request can be
issued (the model value needed to call `query` is never produced). -/
theorem C7_missing_credential_fatal (instanceOptions : PostOptions) (env : Env)
    (h : env "OPENAI_API_KEY" = none) :
    OpenAIModel.construct instanceOptions env =
      .error (.missing "Please set the OPENAI_API_KEY environment variable.") := by
  simp [OpenAIModel.construct, getEnv, h, Except.map]

/-- C7 witness: the empty environment. -/
theorem C7_witness :
    OpenAIModel.construct emptyPostOptions (fun _ => none) =
      .error (.missing "Please set the OPENAI_API_KEY environment variable.") :=
  C7_missing_credential_fatal emptyPostOptions (fun _ => none) rfl

/-- C8: `query` is deterministic in prompt, options and the transport's
response: two calls whose transports resolve the built request with the
same payload produce equal result sets. -/
theorem C8_query_deterministic (model : OpenAIModel) (prompt : String)
    (opts : PostOptions) (t1 t2 : Transport)
    (h : t1 model.apiEndpoint (headersOf model.apiKey)
        (buildRequestBody prompt (model.effectiveOptions opts)) =
      t2 model.apiEndpoint (headersOf model.apiKey)
        (buildRequestBody prompt (model.effectiveOptions opts))) :
    model.query prompt opts t1 = model.query prompt opts t2 := by
  simp only [OpenAIModel.query, h]

/-- C8 witness: the same stubbed transport used twice. -/
theorem C8_witness :
    sampleModel.query "p" emptyPostOptions (constTransport (okChoices 200 ["hi"])) =
      sampleModel.query "p" emptyPostOptions (constTransport (okChoices 200 ["hi"])) :=
  C8_query_deterministic sampleModel "p" emptyPostOptions
    (constTransport (okChoices 200 ["hi"])) (constTransport (okChoices 200 ["hi"])) rfl

/-- C9: a credential set to the empty string is treated exactly like an
absent one — `!value` rejects every falsy value — so construction fails
with the same fatal configuration error. -/
theorem C9_empty_credential_fatal (instanceOptions : PostOptions) (env : Env)
    (h : env "OPENAI_API_KEY" = some "") :
    OpenAIModel.construct instanceOptions env =
      .error (.missing "Please set the OPENAI_API_KEY environment variable.") := by
  simp [OpenAIModel.construct, getEnv, h, Except.map]

/-- C9 witness: an environment mapping every variable to the empty
string. -/
theorem C9_witness :
    OpenAIModel.construct emptyPostOptions (fun _ => some "") =
      .error (.missing "Please set the OPENAI_API_KEY environment variable.") :=
  C9_empty_credential_fatal emptyPostOptions (fun _ => some "") rfl

/-- C10: a layer that holds a recognized key with value `undefined`
overrides the layers below for that field — the merged field is
`undefined`, the built-in default is not applied, and the body carries
`undefined`; shown for each per-call key and for an instance-level key
shadowing nothing above it. -/
theorem C10_undefined_overrides (model : OpenAIModel) (call : PostOptions) (prompt : String) :
    (call.max_tokens = .undef →
      (model.effectiveOptions call).max_tokens = .undef ∧
      (model.effectiveOptions call).max_tokens ≠ .val 100 ∧
      (buildRequestBody prompt (model.effectiveOptions call)).max_tokens = .undef) ∧
    (call.temperature = .undef → (model.effectiveOptions call).temperature = .undef) ∧
    (call.n = .undef → (model.effectiveOptions call).n = .undef) ∧
    (call.top_p = .undef → (model.effectiveOptions call).top_p = .undef) ∧
    (call.stop = .undef → (model.effectiveOptions call).stop = .undef) ∧
    (call.n = .absent → model.instanceOptions.n = .undef →
      (model.effectiveOptions call).n = .undef ∧
      (model.effectiveOptions call).n ≠ .val 1) := by
  refine ⟨?_, ?_, ?_, ?_, ?_, ?_⟩
  · intro h
    simp [OpenAIModel.effectiveOptions, spreadOptions, buildRequestBody,
      JSField.spread, JSField.read, h]
  · intro h
    simp [OpenAIModel.effectiveOptions, spreadOptions, JSField.spread, h]
  · intro h
    simp [OpenAIModel.effectiveOptions, spreadOptions, JSField.spread, h]
  · intro h
    simp [OpenAIModel.effectiveOptions, spreadOptions, JSField.spread, h]
  · intro h
    simp [OpenAIModel.effectiveOptions, spreadOptions, JSField.spread, h]
  · intro h1 h2
    simp [OpenAIModel.effectiveOptions, spreadOptions, JSField.spread, h1, h2]

/-- C10 witness: per-call `undefined` max_tokens and instance-level
`undefined` n both survive the merge as `undefined`. -/
theorem C10_witness :
    (undefInstModel.effectiveOptions undefCall).max_tokens = JSField.undef ∧
    (undefInstModel.effectiveOptions undefCall).n = JSField.undef :=
  ⟨((C10_undefined_overrides undefInstModel undefCall "p").1 rfl).1,
   ((C10_undefined_overrides undefInstModel undefCall "p").2.2.2.2.2 rfl rfl).1⟩
